import Mathlib

/-!
Verification of the `hf-spaces-monitor` repository (`run.py`) against its
natural-language specification.

The single Python source file is shallowly embedded below.  Pure string
computations (name validation, URL validation) are translated directly.
Network and clock effects are made explicit: each function that performs
I/O takes the outcomes of its external calls (HTTP results, elapsed-time
readings) as arguments, and returns everything the Python function either
returns or observably emits (its return value, the log-classification
branch it took, and how many requests it issued).

Durations and wall-clock readings are modelled as rationals (`ℚ`); Python
floats only enter these claims through comparisons and bookkeeping, never
through rounding-sensitive arithmetic.
-/

/-! ## Character classes and Python `re.match` semantics

`run.py` uses `re.match(r'^[a-zA-Z0-9_-]+$', s)` and
`re.match(r'^[a-zA-Z0-9.-]+$', s)`.  Python's `$` matches at the end of
the string *or just before a single trailing newline*, so
`re.match(r'^[a-zA-Z0-9_-]+$', "a\n")` succeeds.  `pyMatchClassPlus`
models `re.match(r'^[class]+$', s)` for a character class `p`.
-/

/-- The character class `[a-zA-Z0-9_-]` of `check_space_name_validity`
(ASCII letters, ASCII digits, underscore, dash). -/
def nameCharOk (c : Char) : Bool :=
  c.isAlpha || c.isDigit || c = '_' || c = '-'

/-- The character class `[a-zA-Z0-9.-]` of `validate_url`
(ASCII letters, ASCII digits, dot, dash). -/
def domainCharOk (c : Char) : Bool :=
  c.isAlpha || c.isDigit || c = '.' || c = '-'

/-- Python semantics of `re.match(r'^[class]+$', s) is not None` for the
character class `p`: either every character of the (non-empty) string is
in the class, or the string is a non-empty class-only string followed by
one trailing newline (Python's `$` matches before a final `'\n'`). -/
def pyMatchClassPlus (p : Char → Bool) (s : String) : Bool :=
  let cs := s.data
  (!cs.isEmpty && cs.all p) ||
    (cs.getLast? = some '\n' && !cs.dropLast.isEmpty && cs.dropLast.all p)

/-- Mathematical reading of the anchored regex `^[class]+$`: the whole
string is a non-empty sequence of class characters.  This follows the
spec's words (rule 3 of the Identifier Validator) and is compared against
the Python behaviour `pyMatchClassPlus`. -/
def specFullMatch (p : Char → Bool) (s : String) : Bool :=
  !s.data.isEmpty && s.data.all p

/-! ## `check_space_name_validity` (run.py lines 125-152) -/

/-- `check_space_name_validity(space_name)` from `run.py`; the module
global `username` is passed explicitly.  Checks, in order:
length ≤ 50; `len(username) + 1 + len(space_name) ≤ 63`;
`re.match(r'^[a-zA-Z0-9_-]+$', space_name)`. -/
def check_space_name_validity (username space_name : String) : Bool :=
  if 50 < space_name.length then false
  else if 63 < username.length + 1 + space_name.length then false
  else pyMatchClassPlus nameCharOk space_name

/-! ## `validate_url` (run.py lines 19-55) -/

/-- Python `domain.split('.')` on a character list: splits at every dot,
keeping empty pieces (`"".split('.') == ['']`). -/
def splitOnDot : List Char → List (List Char)
  | [] => [[]]
  | '.' :: rest => [] :: splitOnDot rest
  | c :: rest =>
    match splitOnDot rest with
    | [] => [[c]]
    | l :: ls => (c :: l) :: ls

/-- `urlparse(url).netloc` for the URLs the prober constructs: everything
after the `"https://"` scheme prefix up to the first `'/'`, `'?'` or
`'#'`.  (The prober only ever builds `https://…` URLs with no path; other
schemes are not modelled.  `urlparse` raises only on unbalanced square
brackets in the authority, a case excluded by hypothesis where it could
matter.) -/
def extractNetloc (url : String) : String :=
  if "https://".data.isPrefixOf url.data then
    String.mk ((url.data.drop 8).takeWhile
      (fun c => !(c = '/' || c = '?' || c = '#')))
  else ""

/-- `validate_url(url)` from `run.py`: total-URL length ≤ 253, domain
length ≤ 253, every dot-separated label of length in (0, 63], and the
domain matches `^[a-zA-Z0-9.-]+$` under Python `re.match` semantics. -/
def validate_url (url : String) : Bool :=
  if 253 < url.length then false
  else
    let domain := extractNetloc url
    if 253 < domain.length then false
    else if (splitOnDot domain.data).any
        (fun label => 63 < label.length || label.length = 0) then false
    else pyMatchClassPlus domainCharOk domain

/-! ## `check_space_with_browser_emulation` (run.py lines 57-123) -/

/-- Substring test (`needle in haystack` on Python strings). -/
def infixOf (needle : List Char) : List Char → Bool
  | [] => needle.isEmpty
  | c :: rest => needle.isPrefixOf (c :: rest) || infixOf needle rest

/-- Outcome of the probe's single `requests.get` + `raise_for_status`
call, as seen by the `try/except` ladder of
`check_space_with_browser_emulation`. -/
inductive ProbeNetResult where
  | success
  | connectionError (msg : String)
  | timeout
  | httpError (statusCode : Option Nat)
  | requestException (msg : String)
  | otherException (msg : String)
deriving DecidableEq

/-- Which logging branch of the probe fired (the probe's only
classification of failures; its Python return value is just the pair). -/
inductive ProbeLogKind where
  | okLog
  | urlInvalidLog
  | parseFailLog
  | connFailLog
  | timeoutLog
  | httpErrLog (statusCode : Option Nat)
  | requestFailLog
  | unknownLog
deriving DecidableEq

/-- The URL the probe builds:
`f"https://{username}-{space_name}.hf.space"`. -/
def probeUrl (username space_name : String) : String :=
  "https://" ++ username ++ "-" ++ space_name ++ ".hf.space"

/-- `check_space_with_browser_emulation(space_name)` from `run.py`.
`net` is the outcome of the single HTTP GET (with `raise_for_status`);
`elapsed` is the wall-clock duration measured around the call.  Returns
the Python return value `(succeeded, duration)` paired with the logging
branch taken.  On an invalid URL the function returns `(False, 0.0)`
before any network request, so the result ignores `net` and `elapsed`. -/
def check_space_with_browser_emulation (username space_name : String)
    (net : ProbeNetResult) (elapsed : ℚ) : (Bool × ℚ) × ProbeLogKind :=
  if !validate_url (probeUrl username space_name) then
    ((false, 0), .urlInvalidLog)
  else
    match net with
    | .success => ((true, elapsed), .okLog)
    | .connectionError msg =>
      ((false, elapsed),
        if infixOf "Failed to parse".data msg.data
            || infixOf "label empty or too long".data msg.data then
          .parseFailLog
        else .connFailLog)
    | .timeout => ((false, elapsed), .timeoutLog)
    | .httpError code => ((false, elapsed), .httpErrLog code)
    | .requestException _ => ((false, elapsed), .requestFailLog)
    | .otherException _ => ((false, elapsed), .unknownLog)

/-- The Python return value of the probe (the `(bool, float)` pair). -/
def probeReturn (username space_name : String)
    (net : ProbeNetResult) (elapsed : ℚ) : Bool × ℚ :=
  (check_space_with_browser_emulation username space_name net elapsed).1

/-! ## `rebuild_space` (run.py lines 154-226)

The initial POST and each status GET are external calls; their outcomes,
together with the wall-clock readings the function takes, are supplied
through a `RebuildEnv`.  Readings: `checkT k` is
`time.time() - start_time` at the `k`-th evaluation of the `while`
condition; `retT k` is the elapsed duration computed by a `return`
inside iteration `k`; `exitT` is the elapsed duration computed at the
final return after the loop; `postElapsed` is the elapsed duration when
the initial POST fails. -/

/-- Outcome of one status query (`requests.get` + `raise_for_status` +
`.json()` + `.get("stage", "")`) as seen by the loop body's
`try/except`. -/
inductive PollStep where
  | stageIs (stage : String)
  | requestError (msg : String)
  | otherError (msg : String)
deriving DecidableEq

/-- External inputs of one `rebuild_space` run. -/
structure RebuildEnv where
  postOk : Bool
  postElapsed : ℚ
  polls : Nat → PollStep
  checkT : Nat → ℚ
  retT : Nat → ℚ
  exitT : ℚ

/-- One polling iteration of `rebuild_space` after the sleep: the
status query `p` either terminates the loop with `some (result,
elapsed)` — request failure, unknown error, `stage == "RUNNING"`, or
`"ERROR" in stage` — or yields `none` and the loop continues. -/
def pollOnce (p : PollStep) (elapsed : ℚ) : Option (Bool × ℚ) :=
  match p with
  | .requestError _ => some (false, elapsed)
  | .otherError _ => some (false, elapsed)
  | .stageIs stage =>
    if stage = "RUNNING" then some (true, elapsed)
    else if infixOf "ERROR".data stage.data then some (false, elapsed)
    else none

/-- The `while time.time() - start_time < 600 and attempt < max_attempts`
loop of `rebuild_space`.  `remaining` is `max_attempts - attempt` (so
the loop guard `attempt < 10` is `0 < remaining`); `k` is the current
attempt index.  Returns the Python return value paired with the number
of status queries issued. -/
def pollLoop (env : RebuildEnv) : Nat → Nat → (Bool × ℚ) × Nat
  | 0, _ => ((false, env.exitT), 0)
  | remaining + 1, k =>
    if env.checkT k < 600 then
      match pollOnce (env.polls k) (env.retT k) with
      | some res => (res, 1)
      | none =>
        let rest := pollLoop env remaining (k + 1)
        (rest.1, rest.2 + 1)
    else ((false, env.exitT), 0)

/-- `rebuild_space(space_name)` from `run.py`: POST the rebuild request;
on request failure return `(False, elapsed)` immediately, otherwise run
the doubly bounded polling loop (`max_attempts = 10`).  Returns the
Python return value paired with the number of status queries issued. -/
def rebuild_space (env : RebuildEnv) : (Bool × ℚ) × Nat :=
  if env.postOk then pollLoop env 10 0
  else ((false, env.postElapsed), 0)

/-! ## The `__main__` orchestrator loop (run.py lines 622-694) -/

/-- One entry of the `results` list.  The Python success path appends a
dict without `invalid_name` / `error_type` keys; absent keys are
modelled by `errorType = none` (read back via `r.get('error_type', '')`)
and `invalidName = false` (read back via `r.get('invalid_name',
False)`).  `result` is always a proper bool in `run.py`. -/
structure ResultRecord where
  space : String
  result : Bool
  duration : ℚ
  invalidName : Bool
  errorType : Option String
deriving DecidableEq

/-- External inputs consumed when the orchestrator processes one target:
the elapsed wall-clock reading at the loop-head global-timeout check,
the target name, the probe's external inputs, and the recovery driver's
external inputs. -/
structure SpaceRun where
  elapsed : ℚ
  space : String
  probeNet : ProbeNetResult
  probeElapsed : ℚ
  rebuildEnv : RebuildEnv

/-- The per-target body of the `__main__` loop (validity check → probe →
conditional rebuild → append), for the configured `username`.  Returns
the appended `ResultRecord` paired with the number of `rebuild_space`
invocations (0 or 1). -/
def processSpace (username : String) (x : SpaceRun) : ResultRecord × Nat :=
  if !check_space_name_validity username x.space then
    ({ space := x.space, result := false, duration := 0,
       invalidName := true, errorType := some "name_too_long" }, 0)
  else
    let pr := probeReturn username x.space x.probeNet x.probeElapsed
    if pr.1 then
      ({ space := x.space, result := true, duration := pr.2,
         invalidName := false, errorType := none }, 0)
    else
      let rb := (rebuild_space x.rebuildEnv).1
      ({ space := x.space, result := rb.1, duration := rb.2,
         invalidName := false,
         errorType := some (if !rb.1 then "connection_error" else "") }, 1)

/-- The `for space in space_list` loop: before each target the elapsed
time is compared against the global timeout (`break` when strictly
exceeded); otherwise the target is processed and its record appended. -/
def runAll (username : String) (globalTimeout : ℚ) :
    List SpaceRun → List ResultRecord
  | [] => []
  | x :: xs =>
    if globalTimeout < x.elapsed then []
    else (processSpace username x).1 :: runAll username globalTimeout xs

/-- `exit_code = 1 if any(r['result'] is False for r in results) else 0`
from `run.py`. -/
def mainExitCode (results : List ResultRecord) : Nat :=
  if results.any (fun r => !r.result) then 1 else 0

/-! ## JSON values (the payload of the persisted artifact)

`generate_data_and_html` persists an ordered JSON object via
`json.dumps(existing_data, ensure_ascii=False, indent=2)` and loads it
back via `json.loads`.  JSON trees are modelled by a mutual inductive
(object fields keep insertion order, as Python dicts do). -/

mutual
inductive Json where
  | null : Json
  | bool : Bool → Json
  | num : String → Json
  | str : String → Json
  | arr : JsonList → Json
  | obj : JsonFields → Json
inductive JsonList where
  | nil : JsonList
  | cons : Json → JsonList → JsonList
inductive JsonFields where
  | nil : JsonFields
  | cons : String → Json → JsonFields → JsonFields
end

/-- Ordered fields of a JSON object as a plain association list (the
shape of the in-memory `OrderedDict` history). -/
def fieldsToList : JsonFields → List (String × Json)
  | .nil => []
  | .cons k v rest => (k, v) :: fieldsToList rest

/-- Inverse of `fieldsToList`. -/
def listToFields : List (String × Json) → JsonFields
  | [] => .nil
  | (k, v) :: rest => .cons k v (listToFields rest)

/-- Python `d[k] = v` on an (ordered) dict as built by the JSON object
scanner: replace the value in place if the key is present (keeping its
position), else append. -/
def fieldsInsert : JsonFields → String → Json → JsonFields
  | .nil, k, v => .cons k v .nil
  | .cons k0 v0 rest, k, v =>
    if k0 = k then .cons k0 v rest
    else .cons k0 v0 (fieldsInsert rest k v)

/-! ### `json.dumps(· , ensure_ascii=False, indent=2)` -/

/-- The indentation produced for nesting level `lvl` with `indent=2`. -/
def indentStr (lvl : Nat) : String := String.mk (List.replicate (2 * lvl) ' ')

/-- Lowercase hexadecimal digit. -/
def hexDigit (n : Nat) : Char :=
  if n < 10 then Char.ofNat (48 + n) else Char.ofNat (87 + n)

/-- String-body escaping of `json.dumps` with `ensure_ascii=False`:
`"`/`\`/control characters escaped, everything else (including
non-ASCII) emitted raw. -/
def escChars : List Char → List Char
  | [] => []
  | c :: rest =>
    (if c = '"' then ['\\', '"']
     else if c = '\\' then ['\\', '\\']
     else if c = '\n' then ['\\', 'n']
     else if c = '\t' then ['\\', 't']
     else if c = '\r' then ['\\', 'r']
     else if c.val = 8 then ['\\', 'b']
     else if c.val = 12 then ['\\', 'f']
     else if c.val < 32 then
       ['\\', 'u', '0', '0', hexDigit (c.toNat / 16), hexDigit (c.toNat % 16)]
     else [c]) ++ escChars rest

/-- A JSON string literal for `s`. -/
def jsonQuote (s : String) : String :=
  "\"" ++ String.mk (escChars s.data) ++ "\""

mutual
/-- `json.dumps(v, ensure_ascii=False, indent=2)` at nesting level
`lvl` (item separator `",\n"`, key separator `": "`, as Python uses
with `indent`). -/
def dumpJson : Nat → Json → String
  | _, .null => "null"
  | _, .bool true => "true"
  | _, .bool false => "false"
  | _, .num lit => lit
  | _, .str s => jsonQuote s
  | lvl, .arr xs =>
    match xs with
    | .nil => "[]"
    | _ => "[\n" ++ dumpElems (lvl + 1) xs ++ "\n" ++ indentStr lvl ++ "]"
  | lvl, .obj fs =>
    match fs with
    | .nil => "\x7b\x7d"
    | _ => "\x7b\n" ++ dumpFields (lvl + 1) fs ++ "\n" ++ indentStr lvl ++ "\x7d"
/-- Array elements, indented, joined by `",\n"`. -/
def dumpElems : Nat → JsonList → String
  | _, .nil => ""
  | lvl, .cons x rest =>
    indentStr lvl ++ dumpJson lvl x ++
      (match rest with | .nil => "" | _ => ",\n") ++ dumpElems lvl rest
/-- Object members, indented, joined by `",\n"`. -/
def dumpFields : Nat → JsonFields → String
  | _, .nil => ""
  | lvl, .cons k v rest =>
    indentStr lvl ++ jsonQuote k ++ ": " ++ dumpJson lvl v ++
      (match rest with | .nil => "" | _ => ",\n") ++ dumpFields lvl rest
end

/-! ### `json.loads`

A fuel-indexed recursive-descent scanner mirroring Python's
`json.decoder`: optional whitespace around tokens, strict rejection of
anything left over after the top-level value (`"Extra data"`), control
characters forbidden inside strings.  The fuel only bounds recursion
depth of the scanner on finite input and is chosen generously at the
entry point; it is a modelling device, not part of the semantics. -/

/-- JSON whitespace (`' '`, `'\t'`, `'\n'`, `'\r'`). -/
def jsonWs (c : Char) : Bool :=
  c = ' ' || c = '\t' || c = '\n' || c = '\r'

/-- Skip leading JSON whitespace. -/
def skipWs (cs : List Char) : List Char := cs.dropWhile jsonWs

/-- Characters that may occur in a JSON number literal. -/
def numChar (c : Char) : Bool :=
  c.isDigit || c = '-' || c = '+' || c = '.' || c = 'e' || c = 'E'

/-- Value of a hexadecimal digit, if any. -/
def hexVal (c : Char) : Option Nat :=
  if c.isDigit then some (c.toNat - 48)
  else if 'a' ≤ c && c ≤ 'f' then some (c.toNat - 87)
  else if 'A' ≤ c && c ≤ 'F' then some (c.toNat - 55)
  else none

/-- Scan a string body after the opening quote; returns the decoded
characters and the input after the closing quote.  Control characters
are invalid (as in Python's strict mode); common escapes and `\uXXXX`
are decoded. -/
def parseStringRest : Nat → List Char → Option (List Char × List Char)
  | 0, _ => none
  | _ + 1, [] => none
  | fuel + 1, c :: rest =>
    if c = '"' then some ([], rest)
    else if c = '\\' then
      match rest with
      | [] => none
      | e :: rest2 =>
        if e = 'u' then
          match rest2 with
          | h1 :: h2 :: h3 :: h4 :: rest3 =>
            match hexVal h1, hexVal h2, hexVal h3, hexVal h4 with
            | some a, some b, some c2, some d =>
              match parseStringRest fuel rest3 with
              | some (s, r) =>
                some (Char.ofNat (((a * 16 + b) * 16 + c2) * 16 + d) :: s, r)
              | none => none
            | _, _, _, _ => none
          | _ => none
        else
          let dec : Option Char :=
            if e = '"' then some '"'
            else if e = '\\' then some '\\'
            else if e = '/' then some '/'
            else if e = 'n' then some '\n'
            else if e = 't' then some '\t'
            else if e = 'r' then some '\r'
            else if e = 'b' then some (Char.ofNat 8)
            else if e = 'f' then some (Char.ofNat 12)
            else none
          match dec with
          | some ch =>
            match parseStringRest fuel rest2 with
            | some (s, r) => some (ch :: s, r)
            | none => none
          | none => none
    else if c.val < 32 then none
    else
      match parseStringRest fuel (rest : List Char) with
      | some (s, r) => some (c :: s, r)
      | none => none

mutual
/-- Scan one JSON value (leading whitespace allowed); returns the value
and the unconsumed input. -/
def parseVal : Nat → List Char → Option (Json × List Char)
  | 0, _ => none
  | fuel + 1, cs =>
    match skipWs cs with
    | [] => none
    | c :: rest =>
      if c = '"' then
        match parseStringRest fuel rest with
        | some (s, r) => some (.str (String.mk s), r)
        | none => none
      else if c = '{' then parseObjBody fuel rest
      else if c = '[' then parseArrBody fuel rest
      else if c = 't' then
        match rest with
        | 'r' :: 'u' :: 'e' :: r => some (.bool true, r)
        | _ => none
      else if c = 'f' then
        match rest with
        | 'a' :: 'l' :: 's' :: 'e' :: r => some (.bool false, r)
        | _ => none
      else if c = 'n' then
        match rest with
        | 'u' :: 'l' :: 'l' :: r => some (.null, r)
        | _ => none
      else if c.isDigit || c = '-' then
        let lit := (c :: rest).takeWhile numChar
        if (String.mk lit).length = 0 then none
        else some (.num (String.mk lit), (c :: rest).dropWhile numChar)
      else none
/-- Scan an object body after the opening brace: either an immediate
closing brace or a member list.  Duplicate keys overwrite in place, as
the Python scanner's `dict` building does. -/
def parseObjBody : Nat → List Char → Option (Json × List Char)
  | 0, _ => none
  | fuel + 1, cs =>
    match skipWs cs with
    | '}' :: r => some (.obj .nil, r)
    | other => parseMembers fuel other .nil
/-- Scan object members (`"key": value` joined by commas) and the
closing brace; the scanner position must be at the opening quote of the
next key. -/
def parseMembers : Nat → List Char → JsonFields → Option (Json × List Char)
  | 0, _, _ => none
  | fuel + 1, cs, acc =>
    match cs with
    | '"' :: r =>
      match parseStringRest fuel r with
      | none => none
      | some (k, r2) =>
        match skipWs r2 with
        | ':' :: r3 =>
          match parseVal fuel r3 with
          | none => none
          | some (v, r4) =>
            let acc2 := fieldsInsert acc (String.mk k) v
            match skipWs r4 with
            | ',' :: r5 => parseMembers fuel (skipWs r5) acc2
            | '}' :: r5 => some (.obj acc2, r5)
            | _ => none
        | _ => none
    | _ => none
/-- Scan an array body after the opening bracket. -/
def parseArrBody : Nat → List Char → Option (Json × List Char)
  | 0, _ => none
  | fuel + 1, cs =>
    match skipWs cs with
    | ']' :: r => some (.arr .nil, r)
    | other => parseElems fuel other
/-- Scan array elements joined by commas and the closing bracket. -/
def parseElems : Nat → List Char → Option (Json × List Char)
  | 0, _ => none
  | fuel + 1, cs =>
    match parseVal fuel cs with
    | none => none
    | some (v, r) =>
      match skipWs r with
      | ',' :: r2 =>
        match parseElems fuel r2 with
        | some (.arr vs, r3) => some (.arr (.cons v vs), r3)
        | _ => none
      | ']' :: r2 => some (.arr (.cons v .nil), r2)
      | _ => none
end

/-- `json.loads(s)`: scan one value and require only whitespace after
it; otherwise raise `Extra data` (modelled as `none`, alongside every
other scan failure). -/
def json_loads (s : String) : Option Json :=
  match parseVal (4 * s.data.length + 16) s.data with
  | some (v, rest) => if (skipWs rest).isEmpty then some v else none
  | none => none

/-! ## The History Store steps of `generate_data_and_html`
(run.py lines 252-305) -/

/-- `content.find('{')`: index of the first opening brace, if any. -/
def idxOfBrace : List Char → Option Nat
  | [] => none
  | c :: rest =>
    if c = '{' then some 0
    else match idxOfBrace rest with
      | some i => some (i + 1)
      | none => none

/-- The in-memory history: the insertion-ordered entries of
`existing_data` (timestamp key → per-space results object). -/
abbrev History : Type := List (String × Json)

/-- The successful load path of `generate_data_and_html`: locate the
first `'{'`, `json.loads` from there to end of input, and require a
JSON object (anything else makes the `OrderedDict` conversion raise
inside the same `try`).  `none` models an exception or a missing
brace. -/
def goodParse (content : String) : Option History :=
  match idxOfBrace content.data with
  | none => none
  | some i =>
    match json_loads (String.mk (content.data.drop i)) with
    | some (.obj fs) => some (fieldsToList fs)
    | _ => none

/-- The load step of `generate_data_and_html` (run.py lines 252-268):
missing file → empty history; file content with no `'{'` → the initial
empty `OrderedDict` survives; parse success of an object → its entries;
any exception in the `try` block (unparseable payload, non-object
payload) → logged warning and empty history. -/
def loadHistory : Option String → History
  | none => []
  | some content =>
    match idxOfBrace content.data with
    | none => []
    | some _ =>
      match goodParse content with
      | some h => h
      | none => []

/-- The save step (run.py lines 300-304): the artifact is the fixed
variable-declaration prefix, the serialized JSON object, and a closing
semicolon — `f"const spaceStatusData = {json.dumps(existing_data,
ensure_ascii=False, indent=2)};"`. -/
def saveArtifact (h : History) : String :=
  "const spaceStatusData = " ++ dumpJson 0 (Json.obj (listToFields h)) ++ ";"

/-- Python `existing_data[formatted_time] = current_results` on the
ordered history: replace in place if the key exists, else append. -/
def odInsert (h : History) (k : String) (v : Json) : History :=
  if h.any (fun p => p.1 = k) then
    h.map (fun p => if p.1 = k then (k, v) else p)
  else h ++ [(k, v)]

/-- The cap step (run.py lines 293-298): when more than 50 entries are
present, delete the keys in `list(existing_data.keys())[:-50]`. -/
def capAt50 (h : History) : History :=
  if 50 < h.length then
    let keysToRemove := (h.map Prod.fst).take (h.length - 50)
    h.filter (fun p => decide (p.1 ∉ keysToRemove))
  else h

/-- The merge step of `generate_data_and_html`: insert the current
batch under the timestamp key, then cap at the 50 most recent
entries. -/
def mergeStep (h : History) (timestampKey : String) (batch : Json) : History :=
  capAt50 (odInsert h timestampKey batch)

/-! ## Spec-side definitions

These follow the specification's words (data model section 3 and probe
section 4.2) and are compared against the embedded code. -/

/-- Modelled from the spec: the `ErrorKind` enumeration of the data
model (section 3). -/
inductive ErrorKind where
  | noneKind
  | invalidNameKind
  | urlInvalidKind
  | connectionErrorKind
  | timeoutKind
  | httpErrorKind
  | parseErrorKind
  | unknownKind
deriving DecidableEq

/-- Modelled from the spec: the probe outcome classification of
section 4.2 step 4 — success → none; connection-level failure →
`connection_error`, refined to `parse_error` when a DNS/label-parsing
substring is detectable in the error message; timeout → `timeout`;
raise-on-status → `http_error`; any other exception → `unknown`. -/
def specProbeErrorKind : ProbeNetResult → ErrorKind
  | .success => .noneKind
  | .connectionError msg =>
    if infixOf "Failed to parse".data msg.data
        || infixOf "label empty or too long".data msg.data then
      .parseErrorKind
    else .connectionErrorKind
  | .timeout => .timeoutKind
  | .httpError _ => .httpErrorKind
  | .requestException _ => .unknownKind
  | .otherException _ => .unknownKind

/-- The probe's log-branch classification table as a standalone
function of the network outcome (valid-URL case). -/
def probeLogClass : ProbeNetResult → ProbeLogKind
  | .success => .okLog
  | .connectionError msg =>
    if infixOf "Failed to parse".data msg.data
        || infixOf "label empty or too long".data msg.data then
      .parseFailLog
    else .connFailLog
  | .timeout => .timeoutLog
  | .httpError code => .httpErrLog code
  | .requestException _ => .requestFailLog
  | .otherException _ => .unknownLog

/-- The spec `ErrorKind` that each probe log branch names. -/
def logKindToErrorKind : ProbeLogKind → ErrorKind
  | .okLog => .noneKind
  | .urlInvalidLog => .urlInvalidKind
  | .parseFailLog => .parseErrorKind
  | .connFailLog => .connectionErrorKind
  | .timeoutLog => .timeoutKind
  | .httpErrLog _ => .httpErrorKind
  | .requestFailLog => .unknownKind
  | .unknownLog => .unknownKind

/-! ## Concrete inputs used by witnesses and counterexamples -/

/-- A non-empty one-entry history whose display-name key contains
non-ASCII characters (the shape `generate_data_and_html` writes). -/
def sampleHistory : History :=
  [("2025-01-01 12:00:00",
    Json.obj (.cons "空间A"
      (Json.obj (.cons "status" (.bool true)
        (.cons "duration" (.str "1.23秒")
          (.cons "error_type" (.str "") .nil)))) .nil))]

/-- Recovery inputs where every status poll reports a non-terminal
`BUILDING` stage and the elapsed clock stays under budget: the loop
exhausts its attempt cap. -/
def envBuildingForever : RebuildEnv :=
  { postOk := true, postElapsed := 0,
    polls := fun _ => .stageIs "BUILDING",
    checkT := fun k => (31 : ℚ) * k,
    retT := fun k => (31 : ℚ) * k + 30,
    exitT := 610 }

/-- Recovery inputs where the first status poll reports `RUNNING`. -/
def envRunningFirst : RebuildEnv :=
  { postOk := true, postElapsed := 0,
    polls := fun _ => .stageIs "RUNNING",
    checkT := fun _ => 30,
    retT := fun _ => 42,
    exitT := 642 }

/-- Recovery inputs whose initial rebuild POST fails (failure context:
request failure; no status query is ever issued). -/
def envPostFails : RebuildEnv :=
  { postOk := false, postElapsed := 600,
    polls := fun _ => .stageIs "BUILDING",
    checkT := fun _ => 0, retT := fun _ => 0, exitT := 0 }

/-- Recovery inputs that exhaust all 10 polls without a terminal stage
(failure context: unknown/timeout), ending at the same elapsed duration
as `envPostFails` for comparability. -/
def envExhausts : RebuildEnv :=
  { postOk := true, postElapsed := 0,
    polls := fun _ => .stageIs "BUILDING",
    checkT := fun _ => 0,
    retT := fun _ => 0,
    exitT := 600 }

/-- An orchestrator target whose probe hits a connection error and
whose recovery POST fails. -/
def runPostFails : SpaceRun :=
  { elapsed := 0, space := "sp",
    probeNet := .connectionError "connection refused", probeElapsed := 3,
    rebuildEnv := envPostFails }

/-- An orchestrator target whose probe hits a connection error and
whose recovery exhausts its polling bounds. -/
def runExhausts : SpaceRun :=
  { elapsed := 0, space := "sp",
    probeNet := .connectionError "connection refused", probeElapsed := 3,
    rebuildEnv := envExhausts }

/-- An orchestrator target with an underscore in its (validator-accepted)
name; the probe's own network outcome is irrelevant because the URL
check rejects the hostname first. -/
def runUnderscore : SpaceRun :=
  { elapsed := 0, space := "a_b",
    probeNet := .success, probeElapsed := 5,
    rebuildEnv := envPostFails }

/-- An orchestrator target whose probe succeeds. -/
def runProbeOk : SpaceRun :=
  { elapsed := 0, space := "ok-space",
    probeNet := .success, probeElapsed := 2,
    rebuildEnv := envPostFails }

/-! # Theorems -/

/-! ## Helper lemmas -/

/-- `isPrefixOf` accepts any extension of the needle. -/
theorem isPrefixOf_append_self (l₁ l₂ : List Char) :
    l₁.isPrefixOf (l₁ ++ l₂) = true := by
  induction l₁ with
  | nil => simp [List.isPrefixOf]
  | cons a as ih => simp [List.isPrefixOf, ih]

/-- `takeWhile` keeps a list all of whose elements satisfy the predicate. -/
theorem takeWhile_eq_self_of_all (p : Char → Bool) (l : List Char)
    (h : ∀ c ∈ l, p c = true) : l.takeWhile p = l := by
  induction l with
  | nil => rfl
  | cons a as ih =>
    rw [List.takeWhile_cons, h a (by simp)]
    simp [ih fun c hc => h c (by simp [hc])]

/-- A string accepted by Python `re.match(r'^[class]+$', ·)` consists of
class characters, except possibly a single trailing newline. -/
theorem pyMatchClassPlus_mem (p : Char → Bool) (s : String)
    (h : pyMatchClassPlus p s = true) :
    ∀ c ∈ s.data, p c = true ∨ c = '\n' := by
  intro c hc
  unfold pyMatchClassPlus at h
  simp only [Bool.or_eq_true, Bool.and_eq_true, decide_eq_true_eq,
    List.all_eq_true, Bool.not_eq_true', List.isEmpty_eq_false] at h
  rcases h with ⟨_, hall⟩ | ⟨⟨hlast, _⟩, hall⟩
  · exact Or.inl (hall c hc)
  · have hne : s.data ≠ [] := by
      intro hnil
      rw [hnil] at hlast
      simp at hlast
    have hdec : s.data.dropLast ++ [s.data.getLast hne] = s.data :=
      List.dropLast_append_getLast hne
    have hlast2 : s.data.getLast hne = '\n' := by
      have hq := List.getLast?_eq_getLast s.data hne
      rw [hq] at hlast
      exact Option.some.inj hlast
    rw [← hdec] at hc
    rcases List.mem_append.mp hc with hmem | hmem
    · exact Or.inl (hall c hmem)
    · right
      rw [List.mem_singleton.mp hmem, hlast2]

/-- A character outside the class (other than a trailing newline) makes
Python `re.match(r'^[class]+$', ·)` fail. -/
theorem pyMatchClassPlus_eq_false (p : Char → Bool) (s : String) (c : Char)
    (hc : c ∈ s.data) (hp : p c = false) (hn : c ≠ '\n') :
    pyMatchClassPlus p s = false := by
  cases h : pyMatchClassPlus p s with
  | false => rfl
  | true =>
    rcases pyMatchClassPlus_mem p s h c hc with h1 | h1
    · rw [hp] at h1
      cases h1
    · exact absurd h1 hn

/-- Deleting the keys of the first `m` entries of a key-nodup
association list is dropping its first `m` entries. -/
theorem filter_keysTake_eq_drop (l : List (String × Json)) (m : Nat)
    (hnd : (l.map Prod.fst).Nodup) :
    l.filter (fun p => decide (p.1 ∉ (l.map Prod.fst).take m)) = l.drop m := by
  set ks := (l.map Prod.fst).take m with hks
  have h1 : (l.take m).filter (fun p => decide (p.1 ∉ ks)) = [] := by
    rw [List.filter_eq_nil_iff]
    intro a ha
    simp only [decide_eq_true_eq, Decidable.not_not]
    rw [hks, ← List.map_take]
    exact List.mem_map_of_mem Prod.fst ha
  have h2 : (l.drop m).filter (fun p => decide (p.1 ∉ ks)) = l.drop m := by
    rw [List.filter_eq_self]
    intro a ha
    simp only [decide_eq_true_eq]
    intro hmem
    have hd : a.1 ∈ (l.map Prod.fst).drop m := by
      rw [← List.map_drop]
      exact List.mem_map_of_mem Prod.fst ha
    have hnd2 : ((l.map Prod.fst).take m ++ (l.map Prod.fst).drop m).Nodup := by
      rw [List.take_append_drop]
      exact hnd
    rw [hks] at hmem
    exact (List.nodup_append.mp hnd2).2.2 hmem hd
  conv_lhs => rw [← List.take_append_drop m l]
  rw [List.filter_append, h1, h2, List.nil_append]

/-! ## C3 — history cap invariant -/

/-- C3: after the merge step of `generate_data_and_html` the history
holds at most 50 entries, and when the cap is exceeded exactly the
oldest entries (by insertion order) are evicted, leaving the 50 most
recently inserted entries in insertion order (here: the final 50-entry
suffix of the post-insertion list).  The hypothesis is the
`OrderedDict` key-uniqueness invariant of the inserted history. -/
theorem C3_history_cap (h : History) (k : String) (v : Json)
    (hnd : ((odInsert h k v).map Prod.fst).Nodup) :
    (mergeStep h k v).length ≤ 50 ∧
    (50 < (odInsert h k v).length →
      mergeStep h k v = (odInsert h k v).drop ((odInsert h k v).length - 50)) := by
  have hmain : 50 < (odInsert h k v).length →
      mergeStep h k v = (odInsert h k v).drop ((odInsert h k v).length - 50) := by
    intro h50
    unfold mergeStep capAt50
    rw [if_pos h50]
    exact filter_keysTake_eq_drop (odInsert h k v) ((odInsert h k v).length - 50) hnd
  constructor
  · by_cases h50 : 50 < (odInsert h k v).length
    · rw [hmain h50, List.length_drop]
      omega
    · unfold mergeStep capAt50
      rw [if_neg h50]
      omega
  · exact hmain

/-- Witness for C3 at a concrete small history. -/
theorem C3_history_cap_witness :
    ((odInsert [("a", Json.null)] "b" Json.null).map Prod.fst).Nodup ∧
    (mergeStep [("a", Json.null)] "b" Json.null).length ≤ 50 :=
  ⟨by decide, (C3_history_cap [("a", Json.null)] "b" Json.null (by decide)).1⟩

/-! ## C4 — validator correctness -/

/-- C4 counterexample: the target `"a\n"` is accepted by
`check_space_name_validity` (Python's `$` matches before the trailing
newline) although it does not match the anchored regex
`^[A-Za-z0-9_-]+$` read as a full match — it contains the disallowed
character `'\n'`. -/
theorem C4_trailing_newline_counterexample :
    check_space_name_validity "user" "a\n" = true ∧
    specFullMatch nameCharOk "a\n" = false := by
  constructor
  · decide
  · decide

/-- C4 (amended): `check_space_name_validity` returns true iff
`len(target) ≤ 50`, `len(ownerPrefix) + 1 + len(target) ≤ 63`, and the
target matches `^[a-zA-Z0-9_-]+$` under Python `re.match` semantics
(where `$` also matches just before a single trailing newline); it is a
pure function of its two inputs. -/
theorem C4_validator_iff (username target : String) :
    check_space_name_validity username target =
      (decide (target.length ≤ 50) &&
        (decide (username.length + 1 + target.length ≤ 63) &&
          pyMatchClassPlus nameCharOk target)) := by
  unfold check_space_name_validity
  split_ifs with h1 h2
  · have hd : decide (target.length ≤ 50) = false := by
      simp only [decide_eq_false_iff_not]
      omega
    rw [hd, Bool.false_and]
  · have hd1 : decide (target.length ≤ 50) = true := by
      simp only [decide_eq_true_eq]
      omega
    have hd2 : decide (username.length + 1 + target.length ≤ 63) = false := by
      simp only [decide_eq_false_iff_not]
      omega
    rw [hd1, hd2, Bool.false_and, Bool.true_and]
  · have hd1 : decide (target.length ≤ 50) = true := by
      simp only [decide_eq_true_eq]
      omega
    have hd2 : decide (username.length + 1 + target.length ≤ 63) = true := by
      simp only [decide_eq_true_eq]
      omega
    rw [hd1, hd2, Bool.true_and, Bool.true_and]

/-! ## C1 — History Store round-trip (broken in the code) -/

set_option maxRecDepth 40000 in
/-- C1 shows a code bug: the saved artifact is
`"const spaceStatusData = " + json.dumps(...) + ";"`, and the loader
passes everything from the first `'{'` — including the trailing
semicolon — to `json.loads`, which rejects trailing non-whitespace
(`Extra data`).  The exception is swallowed and the loaded history is
empty, so saving a non-empty history (here one entry with a non-ASCII
display name) and loading it back yields the empty history, not the
original. -/
theorem C1_roundtrip_broken :
    loadHistory (some (saveArtifact sampleHistory)) = [] ∧
    sampleHistory ≠ [] := by
  constructor
  · rfl
  · intro hcontra
    simp [sampleHistory] at hcontra

/-! ## C2 — loading never raises; failure yields the empty history -/

/-- C2: the load step of `generate_data_and_html` is a total function
of the prior artifact content.  A missing file, an empty file (no `'{'`
to extract), and any content whose extracted payload fails to parse as
a JSON object all yield the empty ordered history; the `try/except`
swallows every parse failure, so a corrupt history cannot abort the
run. -/
theorem C2_load_total (content : String) (hfail : goodParse content = none) :
    loadHistory none = [] ∧
    loadHistory (some "") = [] ∧
    loadHistory (some content) = [] := by
  refine ⟨rfl, rfl, ?_⟩
  simp only [loadHistory]
  cases hidx : idxOfBrace content.data with
  | none => rfl
  | some i =>
    rw [hfail]

/-- Witness for C2: a prefix followed by non-JSON garbage loads as the
empty history. -/
theorem C2_load_total_witness :
    goodParse "const spaceStatusData = \x7bgarbage\x7d;" = none ∧
    loadHistory (some "const spaceStatusData = \x7bgarbage\x7d;") = [] :=
  ⟨rfl, (C2_load_total "const spaceStatusData = \x7bgarbage\x7d;" rfl).2.2⟩

/-! ## C5 — probe contract and classification -/

/-- C5 counterexample: the probe's Python return value is only the pair
`(succeeded, duration)`; a connection-level failure and a timeout with
the same elapsed time produce identical return values although the
claimed `errorKind` component would have to differ
(`connection_error` vs `timeout`).  No function of the return value can
recover the claimed `errorKind`, so the probe does not return the
claimed triple. -/
theorem C5_return_has_no_errorkind :
    probeReturn "user" "sp" (.connectionError "connection refused") 5 =
      probeReturn "user" "sp" .timeout 5 ∧
    specProbeErrorKind (.connectionError "connection refused") ≠
      specProbeErrorKind .timeout := by
  constructor
  · rfl
  · decide

/-- C5 (amended): the probe returns the pair `(succeeded, duration)`
with `succeeded` true exactly on a 2xx/3xx-resolved response and
`duration` the measured elapsed time; the outcome classification exists
only in the logging branch, which matches the spec's taxonomy —
connection failure → `connection_error` (refined to `parse_error` on a
detectable DNS/label-parsing substring), timeout → `timeout`,
raise-on-status → `http_error`, any other exception → `unknown`. -/
theorem C5_probe_pair_and_log (u s : String) (net : ProbeNetResult) (e : ℚ)
    (hurl : validate_url (probeUrl u s) = true) :
    check_space_with_browser_emulation u s net e
      = ((decide (net = .success), e), probeLogClass net) ∧
    logKindToErrorKind (probeLogClass net) = specProbeErrorKind net := by
  constructor
  · unfold check_space_with_browser_emulation
    rw [hurl]
    cases net <;> simp [probeLogClass]
  · cases net with
    | connectionError msg =>
      by_cases hdet : (infixOf "Failed to parse".data msg.data
          || infixOf "label empty or too long".data msg.data) = true
      · simp [probeLogClass, specProbeErrorKind, logKindToErrorKind, hdet]
      · simp only [Bool.not_eq_true] at hdet
        simp [probeLogClass, specProbeErrorKind, logKindToErrorKind, hdet]
    | _ => rfl

/-- Witness for C5 at a concrete timeout outcome. -/
theorem C5_probe_pair_and_log_witness :
    validate_url (probeUrl "user" "sp") = true ∧
    check_space_with_browser_emulation "user" "sp" .timeout 5
      = ((false, 5), .timeoutLog) := by
  refine ⟨rfl, ?_⟩
  rw [(C5_probe_pair_and_log "user" "sp" .timeout 5 rfl).1]
  rfl

/-! ## C6 — recovery polling is doubly bounded -/

/-- The polling loop issues at most `remaining` status queries. -/
theorem pollLoop_queries_le (env : RebuildEnv) :
    ∀ r k, (pollLoop env r k).2 ≤ r := by
  intro r
  induction r with
  | zero => intro k; simp [pollLoop]
  | succ n ih =>
    intro k
    simp only [pollLoop]
    by_cases hc : env.checkT k < 600
    · rw [if_pos hc]
      cases hopt : pollOnce (env.polls k) (env.retT k) with
      | some res => simp
      | none =>
        have := ih (k + 1)
        simp only []
        omega
    · rw [if_neg hc]
      simp

/-- Every issued status query happened while the elapsed clock was
under the 600-second budget. -/
theorem pollLoop_checkT_lt (env : RebuildEnv) :
    ∀ r k j, j < (pollLoop env r k).2 → env.checkT (k + j) < 600 := by
  intro r
  induction r with
  | zero => intro k j hj; simp [pollLoop] at hj
  | succ n ih =>
    intro k j hj
    simp only [pollLoop] at hj
    by_cases hc : env.checkT k < 600
    · rw [if_pos hc] at hj
      cases hopt : pollOnce (env.polls k) (env.retT k) with
      | some res =>
        rw [hopt] at hj
        simp at hj
        have hj0 : j = 0 := by omega
        rw [hj0, Nat.add_zero]
        exact hc
      | none =>
        rw [hopt] at hj
        simp at hj
        cases j with
        | zero => rw [Nat.add_zero]; exact hc
        | succ j2 =>
          have hstep : k + (j2 + 1) = (k + 1) + j2 := by omega
          rw [hstep]
          exact ih (k + 1) j2 (by omega)
    · rw [if_neg hc] at hj
      simp at hj

/-- If no poll ever reaches a terminal state, the loop exits with
failure at the final elapsed reading. -/
theorem pollLoop_exhaust (env : RebuildEnv)
    (hall : ∀ k, pollOnce (env.polls k) (env.retT k) = none) :
    ∀ r k, (pollLoop env r k).1 = (false, env.exitT) := by
  intro r
  induction r with
  | zero => intro k; rfl
  | succ n ih =>
    intro k
    simp only [pollLoop]
    by_cases hc : env.checkT k < 600
    · rw [if_pos hc, hall k]
      exact ih (k + 1)
    · rw [if_neg hc]

/-- C6: when the initial rebuild request succeeds, the polling loop of
`rebuild_space` issues at most 10 status queries, polls only while the
elapsed wall clock is under 600 seconds, and — if no poll reaches a
terminal state — returns failure with the elapsed duration at loop
exit. -/
theorem C6_polling_bounds (env : RebuildEnv) (hpost : env.postOk = true) :
    (rebuild_space env).2 ≤ 10 ∧
    (∀ j, j < (rebuild_space env).2 → env.checkT j < 600) ∧
    ((∀ k, pollOnce (env.polls k) (env.retT k) = none) →
      (rebuild_space env).1 = (false, env.exitT)) := by
  unfold rebuild_space
  rw [hpost]
  simp only [if_true]
  refine ⟨pollLoop_queries_le env 10 0, ?_, ?_⟩
  · intro j hj
    have := pollLoop_checkT_lt env 10 0 j hj
    rwa [Nat.zero_add] at this
  · intro hall
    exact pollLoop_exhaust env hall 10 0

/-- Witness for C6: polls stuck at a non-terminal `BUILDING` stage
exhaust the attempt cap and return failure at the exit reading. -/
theorem C6_polling_bounds_witness :
    (rebuild_space envBuildingForever).1 = (false, 610) ∧
    (rebuild_space envBuildingForever).2 ≤ 10 := by
  have h := C6_polling_bounds envBuildingForever rfl
  exact ⟨h.2.2 fun k => rfl, h.1⟩

/-! ## C7 — recovery terminal conditions -/

/-- C7: in a polling iteration reached with the elapsed clock under
budget, a status request failure returns failure with that iteration's
elapsed duration and no further query; stage `"RUNNING"` returns
success; a stage containing the substring `"ERROR"` returns failure. -/
theorem C7_terminal_conditions (env : RebuildEnv) (r k : Nat)
    (hc : env.checkT k < 600) :
    (∀ msg, env.polls k = .requestError msg →
      pollLoop env (r + 1) k = ((false, env.retT k), 1)) ∧
    (env.polls k = .stageIs "RUNNING" →
      pollLoop env (r + 1) k = ((true, env.retT k), 1)) ∧
    (∀ s, env.polls k = .stageIs s → infixOf "ERROR".data s.data = true →
      pollLoop env (r + 1) k = ((false, env.retT k), 1)) := by
  refine ⟨?_, ?_, ?_⟩
  · intro msg hpoll
    simp only [pollLoop]
    rw [if_pos hc, hpoll]
    rfl
  · intro hpoll
    simp only [pollLoop]
    rw [if_pos hc, hpoll]
    rfl
  · intro s hpoll herr
    simp only [pollLoop]
    rw [if_pos hc, hpoll]
    by_cases hs : s = "RUNNING"
    · rw [hs] at herr
      exact absurd herr (by decide)
    · simp [pollOnce, hs, herr]

/-- Witness for C7: a first poll reporting `RUNNING` terminates the
loop successfully after exactly one query. -/
theorem C7_terminal_conditions_witness :
    pollLoop envRunningFirst 10 0 = ((true, 42), 1) := by
  have h := (C7_terminal_conditions envRunningFirst 9 0
    (by norm_num [envRunningFirst])).2.1 rfl
  exact h


/-! ## C8 — orchestrator recovery path -/

/-- C8 counterexample: two different recovery failure contexts — the
rebuild POST itself failing (0 status queries issued) versus the
polling loop exhausting all 10 attempts without a terminal stage —
produce recorded outcomes identical in every stored field; in
particular `error_type` is the constant `"connection_error"` in both,
and no `recoveryAttempted` field exists in the record at all.  The
recorded errorKind therefore is not set from the recovery failure
context as the claim states. -/
theorem C8_errorkind_ignores_context :
    (rebuild_space envPostFails).2 = 0 ∧
    (rebuild_space envExhausts).2 = 10 ∧
    (rebuild_space envPostFails).1.1 = false ∧
    (rebuild_space envExhausts).1.1 = false ∧
    (processSpace "user" runPostFails).1 = (processSpace "user" runExhausts).1 ∧
    (processSpace "user" runPostFails).1.errorType = some "connection_error" := by
  refine ⟨rfl, by decide, rfl, by decide, by decide, rfl⟩

/-- C8 (amended): for every target whose probe fails, the Recovery
Driver is invoked exactly once, the recorded `result` and `duration`
are the recovery result and duration, and `error_type` is the constant
`"connection_error"` when recovery failed and `""` when it succeeded;
no `recoveryAttempted` field is recorded (the recovery attempt is
implicit in the branch taken). -/
theorem C8_recovery_outcome (u : String) (x : SpaceRun)
    (hvalid : check_space_name_validity u x.space = true)
    (hprobe : (probeReturn u x.space x.probeNet x.probeElapsed).1 = false) :
    (processSpace u x).2 = 1 ∧
    (processSpace u x).1.result = (rebuild_space x.rebuildEnv).1.1 ∧
    (processSpace u x).1.duration = (rebuild_space x.rebuildEnv).1.2 ∧
    (processSpace u x).1.errorType =
      some (if (rebuild_space x.rebuildEnv).1.1 then "" else "connection_error") := by
  simp only [processSpace, hvalid, hprobe, Bool.not_true, Bool.false_eq_true,
    if_false]
  refine ⟨trivial, trivial, trivial, ?_⟩
  by_cases hb : (rebuild_space x.rebuildEnv).1.1 = true
  · simp [hb]
  · simp only [Bool.not_eq_true] at hb
    simp [hb]

/-- Witness for C8 at a target whose probe hits a connection error and
whose recovery POST fails. -/
theorem C8_recovery_outcome_witness :
    (processSpace "user" runPostFails).2 = 1 ∧
    (processSpace "user" runPostFails).1.result = false := by
  have h := C8_recovery_outcome "user" runPostFails rfl rfl
  refine ⟨h.1, ?_⟩
  rw [h.2.1]
  rfl

/-! ## C9 — exit code and global-timeout truncation -/

/-- The exit code is 0 exactly when every recorded outcome is true. -/
theorem mainExitCode_eq_zero_iff (rs : List ResultRecord) :
    mainExitCode rs = 0 ↔ ∀ r ∈ rs, r.result = true := by
  unfold mainExitCode
  by_cases h : rs.any (fun r => !r.result) = true
  · rw [if_pos h]
    simp only [List.any_eq_true, Bool.not_eq_true'] at h
    obtain ⟨r, hr, hb⟩ := h
    constructor
    · intro h1
      exact absurd h1 (by norm_num)
    · intro hall
      rw [hall r hr] at hb
      cases hb
  · rw [if_neg h]
    simp only [List.any_eq_true, Bool.not_eq_true', not_exists] at h
    push_neg at h
    constructor
    · intro _ r hr
      by_cases hres : r.result = true
      · exact hres
      · simp only [Bool.not_eq_true] at hres
        exact absurd hres (h r hr)
    · intro _
      rfl

/-- C9: targets are processed in order until the first per-iteration
global-timeout check fails; skipped targets are simply omitted from the
result list; the exit code is 0 iff every recorded outcome is
successful. -/
theorem C9_exit_code (u : String) (budget : ℚ) (xs : List SpaceRun) :
    runAll u budget xs
      = (xs.takeWhile (fun x => decide (x.elapsed ≤ budget))).map
          (fun x => (processSpace u x).1) ∧
    (mainExitCode (runAll u budget xs) = 0 ↔
      ∀ r ∈ runAll u budget xs, r.result = true) := by
  refine ⟨?_, mainExitCode_eq_zero_iff _⟩
  induction xs with
  | nil => rfl
  | cons x xs ih =>
    simp only [runAll, List.takeWhile_cons]
    by_cases hx : budget < x.elapsed
    · rw [if_pos hx]
      have hd : decide (x.elapsed ≤ budget) = false := by
        simp only [decide_eq_false_iff_not, not_le]
        exact hx
      rw [hd]
      rfl
    · rw [if_neg hx]
      have hd : decide (x.elapsed ≤ budget) = true := by
        simp only [decide_eq_true_eq]
        exact not_lt.mp hx
      rw [hd]
      simp only [if_true, List.map_cons]
      rw [ih]

/-- Witness for C9: one target whose probe succeeds within budget gives
exit code 0. -/
theorem C9_exit_code_witness :
    mainExitCode (runAll "user" 1800 [runProbeOk]) = 0 := by
  refine (C9_exit_code "user" 1800 [runProbeOk]).2.mpr ?_
  intro r hr
  have hev : runAll "user" 1800 [runProbeOk]
      = [(processSpace "user" runProbeOk).1] := by decide
  rw [hev] at hr
  rw [List.mem_singleton.mp hr]
  decide

/-! ## C10 — underscore targets pass the validator but fail the URL check -/

/-- Name-class characters are never URL authority delimiters. -/
theorem nameCharOk_ne_delims (c : Char) (h : nameCharOk c = true) :
    c ≠ '/' ∧ c ≠ '?' ∧ c ≠ '#' := by
  refine ⟨?_, ?_, ?_⟩ <;> rintro rfl <;> exact absurd h (by decide)

/-- The character data of the probe URL decomposes into the scheme
prefix and the constructed hostname. -/
theorem probeUrl_data (u t : String) :
    (probeUrl u t).data
      = "https://".data ++ (u.data ++ '-' :: (t.data ++ ".hf.space".data)) := by
  have h1 : "-".data = ['-'] := rfl
  simp [probeUrl, String.data_append, h1, List.append_assoc]

/-- For an owner prefix without URL delimiters and a validator-class
target, `urlparse` extracts the whole constructed hostname as the
domain. -/
theorem extractNetloc_probeUrl (u t : String)
    (hu : ∀ c ∈ u.data, c ≠ '/' ∧ c ≠ '?' ∧ c ≠ '#')
    (ht : pyMatchClassPlus nameCharOk t = true) :
    extractNetloc (probeUrl u t)
      = String.mk (u.data ++ '-' :: (t.data ++ ".hf.space".data)) := by
  unfold extractNetloc
  rw [probeUrl_data, isPrefixOf_append_self]
  simp only [if_true]
  have hdrop : ("https://".data ++
      (u.data ++ '-' :: (t.data ++ ".hf.space".data))).drop 8
      = u.data ++ '-' :: (t.data ++ ".hf.space".data) :=
    List.drop_left' (by rfl)
  rw [hdrop]
  congr 1
  apply takeWhile_eq_self_of_all
  intro c hc
  have hok : c ≠ '/' ∧ c ≠ '?' ∧ c ≠ '#' := by
    rcases List.mem_append.mp hc with hcu | hcrest
    · exact hu c hcu
    · rcases List.mem_cons.mp hcrest with rfl | hcrest2
      · exact ⟨by decide, by decide, by decide⟩
      · rcases List.mem_append.mp hcrest2 with hct | hcsuf
        · rcases pyMatchClassPlus_mem nameCharOk t ht c hct with hok | rfl
          · exact nameCharOk_ne_delims c hok
          · exact ⟨by decide, by decide, by decide⟩
        · fin_cases hcsuf <;> exact ⟨by decide, by decide, by decide⟩
  simp [hok.1, hok.2.1, hok.2.2]

/-- C10: every target containing an underscore that passes the name
validator (whose class allows `'_'`) is rejected by the probe's URL
validation (whose domain class excludes `'_'`), so the probe returns
`(False, 0.0)` without issuing any network request (the result is
independent of the network outcome), and the orchestrator then invokes
the Recovery Driver exactly once for that target.  The owner prefix is
assumed free of URL delimiter characters. -/
theorem C10_underscore_url_rejected (u t : String)
    (hvalid : check_space_name_validity u t = true)
    (hund : '_' ∈ t.data)
    (hu : ∀ c ∈ u.data, c ≠ '/' ∧ c ≠ '?' ∧ c ≠ '#') :
    validate_url (probeUrl u t) = false ∧
    (∀ net e, check_space_with_browser_emulation u t net e
        = ((false, 0), ProbeLogKind.urlInvalidLog)) ∧
    (∀ x : SpaceRun, x.space = t → (processSpace u x).2 = 1) := by
  have hfacts : t.length ≤ 50 ∧ u.length + 1 + t.length ≤ 63 ∧
      pyMatchClassPlus nameCharOk t = true := by
    unfold check_space_name_validity at hvalid
    split_ifs at hvalid with h1 h2
    exact ⟨by omega, by omega, hvalid⟩
  obtain ⟨hl50, hl63, ht⟩ := hfacts
  have hnet := extractNetloc_probeUrl u t hu ht
  have hmem : '_' ∈ u.data ++ '-' :: (t.data ++ ".hf.space".data) := by
    apply List.mem_append.mpr
    right
    apply List.mem_cons.mpr
    right
    exact List.mem_append.mpr (Or.inl hund)
  have hfalse : validate_url (probeUrl u t) = false := by
    simp only [validate_url]
    rw [hnet]
    have e1 : "https://".length = 8 := rfl
    have e2 : "-".length = 1 := rfl
    have e3 : ".hf.space".length = 9 := rfl
    have h253 : ¬ (253 < (probeUrl u t).length) := by
      simp only [probeUrl, String.length_append, e1, e2, e3]
      omega
    rw [if_neg h253]
    have hmklen : (String.mk (u.data ++ '-' :: (t.data ++ ".hf.space".data))).length
        = u.length + 1 + (t.length + 9) := by
      simp only [String.length, List.length_append, List.length_cons,
        List.length_nil]
      omega
    have h253b : ¬ (253 <
        (String.mk (u.data ++ '-' :: (t.data ++ ".hf.space".data))).length) := by
      rw [hmklen]
      omega
    rw [if_neg h253b]
    by_cases hlab : ((splitOnDot
        (String.mk (u.data ++ '-' :: (t.data ++ ".hf.space".data))).data).any
        fun label => 63 < label.length || decide (label.length = 0)) = true
    · rw [if_pos hlab]
    · rw [if_neg hlab]
      exact pyMatchClassPlus_eq_false domainCharOk _ '_' hmem (by decide) (by decide)
  refine ⟨hfalse, ?_, ?_⟩
  · intro net e
    unfold check_space_with_browser_emulation
    rw [hfalse]
    rfl
  · intro x hx
    have hp : (probeReturn u x.space x.probeNet x.probeElapsed).1 = false := by
      unfold probeReturn
      rw [hx]
      unfold check_space_with_browser_emulation
      rw [hfalse]
      rfl
    have hv2 : check_space_name_validity u x.space = true := by
      rw [hx]
      exact hvalid
    simp only [processSpace, hv2, hp, Bool.not_true, Bool.false_eq_true, if_false]

/-- Witness for C10 at the underscore target `"a_b"`. -/
theorem C10_underscore_url_rejected_witness :
    validate_url (probeUrl "user" "a_b") = false ∧
    check_space_with_browser_emulation "user" "a_b" .success 5
      = ((false, 0), ProbeLogKind.urlInvalidLog) ∧
    (processSpace "user" runUnderscore).2 = 1 := by
  have h := C10_underscore_url_rejected "user" "a_b" (by decide) (by decide)
    (by decide)
  exact ⟨h.1, h.2.1 .success 5, h.2.2 runUnderscore rfl⟩

/-! ## Model sanity checks -/

set_option maxRecDepth 40000 in
/-- Sanity check of the artifact model: without the trailing semicolon
the dumped object parses back to exactly the original history (order
and non-ASCII names preserved), so the load failure exhibited for C1 is
caused precisely by the semicolon that the code appends. -/
theorem roundtrip_without_semicolon :
    loadHistory (some ("const spaceStatusData = "
      ++ dumpJson 0 (Json.obj (listToFields sampleHistory)))) = sampleHistory := by
  rfl
